import Mathlib

/-!
# Verification of the parkinson-annotator ingestion/enrichment/upsert pipeline

Shallow embedding of the core of `JellyEllie/parkinson-annotator`:

* `src/parkinsons_annotator/utils/variantvalidator_fetch.py` (and the twin
  draft `Parkinsons_annotator/utils/variantvalidator_fetch.py`),
* `src/parkinsons_annotator/utils/clinvar_fetch.py`,
* `src/parkinsons_annotator/utils/data_checks.py`,
* `src/parkinsons_annotator/modules/data_extraction.py`.

Python strings are Lean `String`s, `None`-able values are `Option String`,
Python exceptions are the inductive `PyError`, and the two remote annotation
services are black-box environments passed in explicitly.  The relational
store is a quadruple of tables; a SQLAlchemy session is a pair of stores
(`committed` = what other readers see, `working` = committed plus the pending
inserts; queries in the pipeline see `working`, matching SQLAlchemy's default
autoflush behaviour).
-/

deriving instance DecidableEq for Except

namespace ParkAnnot

/-- Python truthiness of an optional string: `None` and `""` are falsy. -/
def pyTruthy : Option String → Bool
  | none => false
  | some s => s ≠ ""

/-- Python `str()`/f-string rendering of an optional value: `None` prints as
`"None"`, a string prints as itself. -/
def pyStr : Option String → String
  | none => "None"
  | some s => s

/-- `splitCharAux cs acc` splits the character list `cs` at every `':'`,
with `acc` the (reversed) characters of the current field. -/
def splitCharAux : List Char → List Char → List (List Char)
  | [], acc => [acc.reverse]
  | c :: cs, acc =>
      if c = ':' then acc.reverse :: splitCharAux cs []
      else splitCharAux cs (c :: acc)

/-- Python `s.split(":")` (note `"".split(":") == [""]`). -/
def pySplitColon (s : String) : List String :=
  (splitCharAux s.data []).map String.mk

/-- `l₁` is a prefix of `l₂` (character lists). -/
def listIsPrefix : List Char → List Char → Bool
  | [], _ => true
  | _ :: _, [] => false
  | a :: as, b :: bs => a = b && listIsPrefix as bs

/-- Substring containment on character lists (`sub` occurs in the list). -/
def listContainsSub (sub : List Char) : List Char → Bool
  | [] => listIsPrefix sub []
  | c :: cs => listIsPrefix sub (c :: cs) || listContainsSub sub cs

/-- Python `sub in s` for strings. -/
def pyContains (s sub : String) : Bool :=
  listContainsSub sub.data s.data

/-- Python `s.startswith(p)`. -/
def pyStartswith (s p : String) : Bool :=
  listIsPrefix p.data s.data

/-- Python `s.isdigit()` (restricted to ASCII digits; in particular
`"".isdigit()` is `False` and a leading `-` makes it `False`). -/
def pyIsdigit (s : String) : Bool :=
  s.data ≠ [] && s.data.all Char.isDigit

/-- The Python exceptions raised by the embedded code.  The custom exception
classes of `variantvalidator_fetch.py` and `clinvar_fetch.py` are distinct
constructors, as are the builtin `TypeError` and the `NameError` raised on
reading a never-assigned local. -/
inductive PyError : Type where
  | typeError : PyError
  | nameError : PyError
  | variantDescriptionError : PyError
  | variantValidatorResponseError : PyError
  | hgvsFormatError : PyError
  | clinVarIDFormatError : PyError
  | clinVarConnectionError : PyError
  | clinVarIDNotFoundError : PyError
  | clinVarESummaryError : PyError
  | otherError : PyError
  deriving Repr, DecidableEq

/-- Outcome of running a client function up to (and including) the point
where it would issue its outbound HTTP request: either it raised before any
network call, or it issued the call with the given request term. -/
inductive Attempt : Type where
  | rejected : PyError → Attempt
  | called : String → Attempt
  deriving Repr, DecidableEq

/-! ## HGVS Resolver Client — `fetch_variant_validator`

The repository holds two divergent drafts of this function.  Both are
embedded, up to the point where the outbound request is issued, so the
validation each copy performs before any network call is explicit. -/

/-- `src/parkinsons_annotator/utils/variantvalidator_fetch.py`,
`fetch_variant_validator`, lines 43–64: splits the description on `":"`,
raises `VariantDescriptionError` when there are not exactly four fields,
and otherwise proceeds directly to `requests.get`. -/
def fetch_variant_validator_attempt_src (variant_description : String) : Attempt :=
  let variant_fields := pySplitColon variant_description
  if variant_fields.length ≠ 4 then
    .rejected .variantDescriptionError
  else
    .called variant_description

/-- `valid_chromosomes = ["X", "Y"] + [str(i) for i in range(1, 23)]`
(`Parkinsons_annotator/utils/variantvalidator_fetch.py`, line 69). -/
def valid_chromosomes : List String :=
  ["X", "Y"] ++ (List.range 22).map (fun i => toString (i + 1))

/-- `valid_bases = ["A", "C", "G", "T"]` (same file, line 90). -/
def valid_bases : List String := ["A", "C", "G", "T"]

/-- `Parkinsons_annotator/utils/variantvalidator_fetch.py`,
`fetch_variant_validator`, lines 52–113: field count must be four,
chromosome must be in 1–22/X/Y, position must be digits only, ref and alt
must each be one of A/C/G/T; any violation raises `VariantDescriptionError`
before the `requests.get` call.  (The leading `isinstance(…, str)` check is
absorbed by the Lean type of the argument.) -/
def fetch_variant_validator_attempt_pa (variant_description : String) : Attempt :=
  let variant_fields := pySplitColon variant_description
  if variant_fields.length ≠ 4 then
    .rejected .variantDescriptionError
  else
    match variant_fields with
    | [chrom, position, ref, alt] =>
        if ¬ valid_chromosomes.contains chrom then
          .rejected .variantDescriptionError
        else if ¬ pyIsdigit position then
          .rejected .variantDescriptionError
        else if ¬ (valid_bases.contains ref ∧ valid_bases.contains alt) then
          .rejected .variantDescriptionError
        else
          .called variant_description
    | _ => .rejected .variantDescriptionError

/-- `src/parkinsons_annotator/utils/variantvalidator_fetch.py`, lines 74–86:
scan the JSON response's keys for the first one that is neither `"flag"`
nor `"metadata"` and take it as the variant record key.  The loop variable
`first_key` is never initialised before the loop, so when every key is
`"flag"`/`"metadata"` the following `if not first_key` reads an unassigned
local and raises `NameError`; when the selected key is the empty string the
`if not first_key` branch raises `VariantValidatorResponseError`. -/
def vv_first_key_src (summary_keys : List String) : Except PyError String :=
  match summary_keys.find? (fun key => ¬ (key = "flag" ∨ key = "metadata")) with
  | none => .error .nameError
  | some first_key =>
      if first_key = "" then .error .variantValidatorResponseError
      else .ok first_key

/-- `Parkinsons_annotator/utils/variantvalidator_fetch.py`, lines 132–143:
`first_key = None`, then scan for the first key containing `":c."`; if none
is found, raise `VariantValidatorResponseError`. -/
def vv_first_key_pa (summary_keys : List String) : Except PyError String :=
  match summary_keys.find? (fun key => pyContains key ":c.") with
  | none => .error .variantValidatorResponseError
  | some first_key =>
      if first_key = "" then .error .variantValidatorResponseError
      else .ok first_key

/-! ## Clinical Annotation Client — `fetch_clinvar_id` -/

/-- Result of the Entrez ESearch call made by `fetch_clinvar_id`: the
connection attempt fails, or the service answers with its `IdList`. -/
inductive ESearchNet : Type where
  | connFail : ESearchNet
  | ids : List String → ESearchNet
  deriving Repr, DecidableEq

/-- The HGVS format gate of `fetch_clinvar_id`
(`src/parkinsons_annotator/utils/clinvar_fetch.py`, line 77):
`hgvs_variant.startswith("NM_") and ":" in hgvs_variant and "c." in hgvs_variant`. -/
def hgvs_format_ok (hgvs_variant : String) : Bool :=
  pyStartswith hgvs_variant "NM_" && pyContains hgvs_variant ":" &&
    pyContains hgvs_variant "c."

/-- Outcome of `fetch_clinvar_id`: rejected before any network call, or the
search was issued with the given term and produced the given result. -/
inductive ClinVarIdOutcome : Type where
  | rejected : PyError → ClinVarIdOutcome
  | searched : String → Except PyError String → ClinVarIdOutcome
  deriving Repr, DecidableEq

/-- `src/parkinsons_annotator/utils/clinvar_fetch.py`, `fetch_clinvar_id`,
lines 50–103: raise `HGVSFormatError` before any network call unless the
string starts with `"NM_"` and contains both `":"` and `"c."`; on a
connectivity failure raise `ClinVarConnectionError`; when the search answers
with an empty `IdList` raise `ClinVarIDNotFoundError`; otherwise return the
first id.  (The leading `isinstance(…, str)` check is absorbed by the Lean
type of the argument.) -/
def fetch_clinvar_id (hgvs_variant : String) (net : ESearchNet) : ClinVarIdOutcome :=
  if ¬ hgvs_format_ok hgvs_variant then
    .rejected .hgvsFormatError
  else
    match net with
    | .connFail => .searched hgvs_variant (.error .clinVarConnectionError)
    | .ids [] => .searched hgvs_variant (.error .clinVarIDNotFoundError)
    | .ids (clinvar_id :: _) => .searched hgvs_variant (.ok clinvar_id)

/-! ## Data model — rows, store, session -/

/-- One normalized data row (`data_columns`, `data_extraction.py` lines
32–36); every column is nullable (`dtype=str`, missing columns added as
`None`). -/
structure Row where
  chromosome : Option String := none
  position : Option String := none
  idCol : Option String := none
  ref : Option String := none
  alt : Option String := none
  vcf_form : Option String := none
  hgvs : Option String := none
  gene_symbol : Option String := none
  cdna_change : Option String := none
  clinvar_id : Option String := none
  clinvar_accession : Option String := none
  classification : Option String := none
  num_records : Option String := none
  review_status : Option String := none
  associated_condition : Option String := none
  clinvar_url : Option String := none
  deriving Repr, DecidableEq

/-- A row of the `variants` table.  Modelled from the spec: the
composite-key schema `variants(vcf_form PK, hgvs, clinvar_id, gene_symbol,
classification, cdna_change, clinvar_accession, num_records, review_status,
associated_condition, clinvar_url)` (§6) that `data_extraction.py` writes
into; the `models.py` under `src/` still holds the superseded
surrogate-id draft and lacks the `Genes` model it imports. -/
structure VariantRecord where
  vcf_form : String
  hgvs : Option String := none
  clinvar_id : Option String := none
  gene_symbol : Option String := none
  classification : Option String := none
  cdna_change : Option String := none
  clinvar_accession : Option String := none
  num_records : Option String := none
  review_status : Option String := none
  associated_condition : Option String := none
  clinvar_url : Option String := none
  deriving Repr, DecidableEq

/-- The relational store.  Modelled from the spec: `patients(name PK)`,
`genes(gene_symbol PK, gene_url)` (the pipeline always writes `gene_url`
as `""`, so genes are kept as their symbols), `variants(vcf_form PK, …)`,
`patient_variant(patient_name, variant_vcf_form, composite PK)` (§6). -/
structure Store where
  patients : List String := []
  genes : List String := []
  variants : List VariantRecord := []
  links : List (String × String) := []
  deriving Repr, DecidableEq

/-- Primary-key lookup `session.get(Variant, vcf_form)`. -/
def findVariant (st : Store) (vcf_form : String) : Option VariantRecord :=
  st.variants.find? (fun v => v.vcf_form = vcf_form)

/-- A SQLAlchemy session over the store: `committed` is what a separate
reader sees, `working` is `committed` plus this session's pending inserts.
`session.get`/`session.query` inside the pipeline read `working`
(sessionmaker's default autoflush), `commit` publishes `working`,
`rollback` discards the pending inserts. -/
structure Session where
  committed : Store
  working : Store
  deriving Repr, DecidableEq

def Session.commit (s : Session) : Session := ⟨s.working, s.working⟩

def Session.rollback (s : Session) : Session := ⟨s.committed, s.committed⟩

/-- A session as freshly produced by `get_db_session()`: no pending writes. -/
def Session.clean (st : Store) : Session := ⟨st, st⟩

/-! ## Existing-Record Lookup — `data_checks.py` -/

/-- `src/parkinsons_annotator/utils/data_checks.py`, lines 6–40:
`existing_variant_check(vcf_form)` looks the variant up by primary key and
returns its column dictionary, or `None` when absent.  (The dictionary it
builds carries exactly the fields of `VariantRecord`, so the record itself
stands for the dictionary.)  Note the single parameter. -/
def existing_variant_check (vcf_form : String) (st : Store) : Option VariantRecord :=
  findVariant st vcf_form

/-- The call `existing_variant_check(vcf_form, session)` as written at
`data_extraction.py` lines 132 and 173: `existing_variant_check` is defined
with a single parameter (`def existing_variant_check(vcf_form: str)` in
`data_checks.py`), so Python raises
`TypeError: existing_variant_check() takes 1 positional argument but 2 were
given` before the body runs. -/
def existing_variant_check_call2 (vcf_form : Option String) (s : Session) :
    Except PyError (Option VariantRecord) :=
  let _ := vcf_form
  let _ := s
  .error .typeError

/-! ## Canonical Identity Normalizer — `fill_variant_notation` -/

/-- The f-string `f"{r.chromosome}:{r.position}:{r.ref}:{r.alt}"`
(`data_extraction.py` line 112). -/
def canonicalKey (r : Row) : String :=
  pyStr r.chromosome ++ ":" ++ pyStr r.position ++ ":" ++ pyStr r.ref ++ ":" ++ pyStr r.alt

/-- `fill_variant_notation` (`data_extraction.py` lines 110–113): set the
`vcf_form` column of every row from chromosome:position:ref:alt. -/
def fill_vcf_form_column (df : List Row) : List Row :=
  df.map (fun r => { r with vcf_form := some (canonicalKey r) })

/-! ## External-service environment

The two annotation services, as seen by the Enrichment Orchestrator:
`fetch_variant_validator` returns a dict that `enrich_hgvs` reads with
`.get('HGVS nomenclature', None)`, and `extract_clinvar_annotation` returns
the nine-field annotation bundle read through `CLINVAR_FIELDS`. -/

/-- The ClinVar annotation bundle returned by `extract_clinvar_annotation`,
keyed as in `CLINVAR_FIELDS` (`data_extraction.py` lines 46–56); each field
read with `dict.get` is nullable. -/
structure ClinVarAnnotation where
  gene_symbol : Option String := none
  cdna_change : Option String := none
  clinvar_id : Option String := none
  clinvar_accession : Option String := none
  classification : Option String := none
  num_records : Option String := none
  review_status : Option String := none
  associated_condition : Option String := none
  clinvar_url : Option String := none
  deriving Repr, DecidableEq

/-- Behaviour of the two remote services during one run: what
`fetch_variant_validator(vcf_form)` and `extract_clinvar_annotation(hgvs)`
return or raise for each argument. -/
structure ApiEnv where
  vv : String → Except PyError (Option String)
  clinvar : String → Except PyError ClinVarAnnotation

/-! ## Enrichment Orchestrator — `enrich_hgvs`, `enrich_clinvar` -/

/-- Body of the `enrich_hgvs` loop for one row with missing/empty `hgvs`
(`data_extraction.py` lines 128–149): the `existing_variant_check(vcf_form,
session)` lookup (line 132, outside the `try`), then — were the lookup to
return — either the database copy of `hgvs`, or the `try`-guarded
VariantValidator fetch whose any exception degrades `hgvs` to `None`.
The second component counts outbound API calls. -/
def enrich_hgvs_row (env : ApiEnv) (s : Session) (r : Row) :
    Except PyError (Row × Nat) :=
  match existing_variant_check_call2 r.vcf_form s with
  | .error e => .error e
  | .ok (some existing) => .ok ({ r with hgvs := existing.hgvs }, 0)
  | .ok none =>
      match env.vv (pyStr r.vcf_form) with
      | .ok hgvs_value => .ok ({ r with hgvs := hgvs_value }, 1)
      | .error _ => .ok ({ r with hgvs := none }, 1)

/-- The `enrich_hgvs` loop over `df[missing_hgvs].index`
(`missing_hgvs = df['hgvs'].isna() | (df['hgvs'] == '')`, line 127):
rows with a truthy `hgvs` are untouched, the others run
`enrich_hgvs_row`; an exception from a row's lookup propagates and
aborts the remaining rows. -/
def enrich_hgvs_go (env : ApiEnv) (s : Session) :
    List Row → Except PyError (List Row × Nat)
  | [] => .ok ([], 0)
  | r :: rest =>
      if pyTruthy r.hgvs then
        match enrich_hgvs_go env s rest with
        | .error e => .error e
        | .ok (rest', m) => .ok (r :: rest', m)
      else
        match enrich_hgvs_row env s r with
        | .error e => .error e
        | .ok (r', n) =>
            match enrich_hgvs_go env s rest with
            | .error e => .error e
            | .ok (rest', m) => .ok (r' :: rest', n + m)

/-- `enrich_hgvs` (`data_extraction.py` lines 116–150). -/
def enrich_hgvs (env : ApiEnv) (df : List Row) (s : Session) :
    Except PyError (List Row × Nat) :=
  enrich_hgvs_go env s df

/-- `for col in CLINVAR_FIELDS.values(): df.at[idx, col] =
existing_variant.get(col)` (`data_extraction.py` lines 177–178). -/
def copyClinVarFromStore (existing : VariantRecord) (r : Row) : Row :=
  { r with
    gene_symbol := existing.gene_symbol
    cdna_change := existing.cdna_change
    clinvar_id := existing.clinvar_id
    clinvar_accession := existing.clinvar_accession
    classification := existing.classification
    num_records := existing.num_records
    review_status := existing.review_status
    associated_condition := existing.associated_condition
    clinvar_url := existing.clinvar_url }

/-- `for field, col in CLINVAR_FIELDS.items(): df.at[idx, col] =
clinvar_data.get(field)` (`data_extraction.py` lines 192–194). -/
def applyClinVar (ann : ClinVarAnnotation) (r : Row) : Row :=
  { r with
    gene_symbol := ann.gene_symbol
    cdna_change := ann.cdna_change
    clinvar_id := ann.clinvar_id
    clinvar_accession := ann.clinvar_accession
    classification := ann.classification
    num_records := ann.num_records
    review_status := ann.review_status
    associated_condition := ann.associated_condition
    clinvar_url := ann.clinvar_url }

/-- Both `except` handlers of the ClinVar fetch set every `CLINVAR_FIELDS`
column of the row to `None` (`data_extraction.py` lines 196–208). -/
def clearClinVarFields (r : Row) : Row :=
  { r with
    gene_symbol := none
    cdna_change := none
    clinvar_id := none
    clinvar_accession := none
    classification := none
    num_records := none
    review_status := none
    associated_condition := none
    clinvar_url := none }

/-- `df[col] = df[col].fillna("Not found in ClinVar")` for every
`CLINVAR_FIELDS` column (`data_extraction.py` lines 214–216); `fillna`
replaces only `None`/NaN cells, an empty string stays. -/
def clinvarFillNotFound (r : Row) : Row :=
  let fill : Option String → Option String := fun v =>
    match v with
    | none => some "Not found in ClinVar"
    | some x => some x
  { r with
    gene_symbol := fill r.gene_symbol
    cdna_change := fill r.cdna_change
    clinvar_id := fill r.clinvar_id
    clinvar_accession := fill r.clinvar_accession
    classification := fill r.classification
    num_records := fill r.num_records
    review_status := fill r.review_status
    associated_condition := fill r.associated_condition
    clinvar_url := fill r.clinvar_url }

/-- The fetch step of the `enrich_clinvar` loop body (`data_extraction.py`
lines 182–212): skip the row when `hgvs` is falsy; otherwise call
`extract_clinvar_annotation(hgvs)` inside `try`, mapping success onto the
`CLINVAR_FIELDS` columns and any exception (the three ClinVar errors or
the bare `Exception` handler) to all-`None` columns. -/
def enrich_clinvar_fetch (env : ApiEnv) (r : Row) : Except PyError (Row × Nat) :=
  if ¬ pyTruthy r.hgvs then .ok (r, 0)
  else
    match env.clinvar (pyStr r.hgvs) with
    | .ok ann => .ok (applyClinVar ann r, 1)
    | .error _ => .ok (clearClinVarFields r, 1)

/-- Body of the `enrich_clinvar` loop for one row with missing/empty
`clinvar_id` (`data_extraction.py` lines 168–212): the
`existing_variant_check(vcf_form, session)` lookup (line 173, outside the
`try`), then — were the lookup to return — the database copy (when the
stored record has a truthy `clinvar_id`) or the fetch step. -/
def enrich_clinvar_row (env : ApiEnv) (s : Session) (r : Row) :
    Except PyError (Row × Nat) :=
  match existing_variant_check_call2 r.vcf_form s with
  | .error e => .error e
  | .ok (some existing) =>
      if pyTruthy existing.clinvar_id then
        .ok (copyClinVarFromStore existing r, 0)
      else
        enrich_clinvar_fetch env r
  | .ok none => enrich_clinvar_fetch env r

/-- The `enrich_clinvar` loop over rows with missing/empty `clinvar_id`
(`missing = df['clinvar_id'].isna() | (df['clinvar_id'] == '')`,
line 166). -/
def enrich_clinvar_go (env : ApiEnv) (s : Session) :
    List Row → Except PyError (List Row × Nat)
  | [] => .ok ([], 0)
  | r :: rest =>
      if pyTruthy r.clinvar_id then
        match enrich_clinvar_go env s rest with
        | .error e => .error e
        | .ok (rest', m) => .ok (r :: rest', m)
      else
        match enrich_clinvar_row env s r with
        | .error e => .error e
        | .ok (r', n) =>
            match enrich_clinvar_go env s rest with
            | .error e => .error e
            | .ok (rest', m) => .ok (r' :: rest', n + m)

/-- `enrich_clinvar` (`data_extraction.py` lines 153–219): the per-row loop
followed by the `fillna("Not found in ClinVar")` pass over the whole
DataFrame. -/
def enrich_clinvar (env : ApiEnv) (df : List Row) (s : Session) :
    Except PyError (List Row × Nat) :=
  match enrich_clinvar_go env s df with
  | .error e => .error e
  | .ok (rows, n) => .ok (rows.map clinvarFillNotFound, n)

/-! ## Upsert/Link Writer — `insert_dataframe_to_db` -/

/-- `gene_symbol = row.get("gene_symbol") or "UNKNOWN"`
(`data_extraction.py` line 252): the placeholder replaces a missing or
empty symbol. -/
def writer_gene_symbol (r : Row) : String :=
  match r.gene_symbol with
  | none => "UNKNOWN"
  | some g => if g = "" then "UNKNOWN" else g

/-- The `Variant(...)` constructed at `data_extraction.py` lines 260–272. -/
def mkVariantRow (r : Row) (gene_symbol : String) : VariantRecord :=
  { vcf_form := pyStr r.vcf_form
    hgvs := r.hgvs
    clinvar_id := r.clinvar_id
    gene_symbol := some gene_symbol
    classification := r.classification
    cdna_change := r.cdna_change
    clinvar_accession := r.clinvar_accession
    num_records := r.num_records
    review_status := r.review_status
    associated_condition := r.associated_condition
    clinvar_url := r.clinvar_url }

/-- `patient = session.get(Patient, name); if not patient: session.add(...)`
(`data_extraction.py` lines 238–241). -/
def ensurePatient (name : String) (st : Store) : Store :=
  if name ∈ st.patients then st
  else { st with patients := st.patients ++ [name] }

/-- `if not session.get(Genes, gene_symbol): session.add(Genes(...)); flush`
(`data_extraction.py` lines 253–255). -/
def ensureGene (gene_symbol : String) (st : Store) : Store :=
  if gene_symbol ∈ st.genes then st
  else { st with genes := st.genes ++ [gene_symbol] }

/-- `variant = session.get(Variant, row["vcf_form"]); if not variant:
session.add(Variant(...)); flush` (`data_extraction.py` lines 258–274). -/
def ensureVariant (r : Row) (gene_symbol : String) (vcf_form : String)
    (st : Store) : Store :=
  match findVariant st vcf_form with
  | some _ => st
  | none => { st with variants := st.variants ++ [mkVariantRow r gene_symbol] }

/-- `link_exists = session.query(Connector).filter_by(...).first();
if not link_exists: session.add(Connector(...))` (`data_extraction.py`
lines 277–288; the `except` guard around the query is unreachable in this
model because the embedded query is total). -/
def ensureLink (name vcf_form : String) (st : Store) : Store :=
  if (name, vcf_form) ∈ st.links then st
  else { st with links := st.links ++ [(name, vcf_form)] }

/-- The per-row body of `insert_dataframe_to_db`
(`data_extraction.py` lines 244–288) as a transform of the session's
working view: skip a row with falsy `vcf_form`, else the three
"exists or create" steps in source order. -/
def insert_row_store (name : String) (st : Store) (r : Row) : Store :=
  if ¬ pyTruthy r.vcf_form then st
  else
    ensureLink name (pyStr r.vcf_form)
      (ensureVariant r (writer_gene_symbol r) (pyStr r.vcf_form)
        (ensureGene (writer_gene_symbol r) st))

/-- `insert_dataframe_to_db` on the working view: ensure the Patient row
exists (insert if absent, lines 238–241), then the per-row upserts. -/
def insert_dataframe_store (name : String) (st : Store) (df : List Row) : Store :=
  df.foldl (fun acc r => insert_row_store name acc r) (ensurePatient name st)

/-- `insert_dataframe_to_db` (`data_extraction.py` lines 222–290): every
`session.add`/`flush` is a pending insert on the session's working view
(visible to this session's later reads, not yet committed); the
`committed` view is untouched until `load_and_insert_data` commits. -/
def insert_dataframe_to_db (name : String) (df : List Row) (s : Session) : Session :=
  { s with working := insert_dataframe_store name s.working df }

/-! ## Ingestion Driver — `load_and_insert_data` -/

/-- Modelled from the spec: `compare_uploaded_vs_existing` is imported from
`parkinsons_annotator.utils.data_checks` and called by the Driver
(`data_extraction.py` line 314, `routes.py` line 134), but no definition of
it exists under src/ (`data_checks.py` ends at the comment announcing it).
§4.7: "Before reprocessing a previously-seen patient, the Driver must
compare the newly-uploaded row set against the currently stored set for
that patient (by canonical key); if the sets are identical, ingestion for
that patient is skipped entirely."  Returns the pair
(`result["exists"]`, `result["identical"]`). -/
def compare_uploaded_vs_existing (patient_name : String) (df : List Row)
    (st : Store) : Bool × Bool :=
  let uploaded := df.map canonicalKey
  let stored := (st.links.filter (fun l => l.1 = patient_name)).map (fun l => l.2)
  (st.patients.contains patient_name,
    uploaded.all (fun k => stored.contains k) && stored.all (fun k => uploaded.contains k))

/-- One iteration of the driver loop (`data_extraction.py` lines 312–325):
compare the upload against the store, skip the patient entirely when it
exists with an identical variant set, otherwise run
`fill_variant_notation → enrich_hgvs → enrich_clinvar →
insert_dataframe_to_db`.  Returns the outcome (an exception propagates),
the session at exit (the enrichment steps never modify the session, so on
an exception it is the session as of the raise), and the number of
outbound API calls made. -/
def process_patient (env : ApiEnv) (patient_name : String) (df : List Row)
    (s : Session) : Except PyError Unit × Session × Nat :=
  if compare_uploaded_vs_existing patient_name df s.working = (true, true) then
    (.ok (), s, 0)
  else
    match enrich_hgvs env (fill_vcf_form_column df) s with
    | .error e => (.error e, s, 0)
    | .ok (df2, n1) =>
        match enrich_clinvar env df2 s with
        | .error e => (.error e, s, n1)
        | .ok (df3, n2) =>
            (.ok (), insert_dataframe_to_db patient_name df3 s, n1 + n2)

/-- The driver loop over `dataframes.items()` (`data_extraction.py`
lines 312–325): stops at the first exception, carrying the session at the
raise point. -/
def process_patients (env : ApiEnv) :
    List (String × List Row) → Session → Except PyError Unit × Session × Nat
  | [], s => (.ok (), s, 0)
  | (name, df) :: rest, s =>
      match process_patient env name df s with
      | (.error e, s', n) => (.error e, s', n)
      | (.ok _, s', n) =>
          match process_patients env rest s' with
          | (res, s'', m) => (res, s'', n + m)

/-- `load_and_insert_data` (`data_extraction.py` lines 293–336), from the
point where the session is obtained: run the driver loop over the loaded
batches; on success `session.commit()`, on any exception
`session.rollback()` and re-`raise`.  Returns the outcome and the store as
visible to subsequent readers (the committed store). -/
def load_and_insert_data (env : ApiEnv) (batches : List (String × List Row))
    (st : Store) : Except PyError Unit × Store :=
  match process_patients env batches (Session.clean st) with
  | (.ok _, s', _) => (.ok (), (Session.commit s').committed)
  | (.error e, s', _) => (.error e, (Session.rollback s').committed)

/-! ## Invariants and concrete data used by the theorems below -/

/-- Every Variant row references an existing Gene row (spec §3: "every
Variant always has a valid Gene reference"). -/
def geneInvariant (st : Store) : Bool :=
  st.variants.all (fun v =>
    match v.gene_symbol with
    | some g => decide (g ∈ st.genes)
    | none => false)

/-- An external-service environment in which VariantValidator resolves no
nomenclature and ClinVar finds no record. -/
def nullApiEnv : ApiEnv :=
  { vv := fun _ => .ok none, clinvar := fun _ => .error .clinVarIDNotFoundError }

/-- A fully pre-annotated upload row except for the gene symbol
(`hgvs` and `clinvar_id` populated, `gene_symbol` absent). -/
def rowNoGene : Row :=
  { chromosome := some "1", position := some "5", ref := some "A", alt := some "T",
    hgvs := some "NM_0001.1:c.1A>G", clinvar_id := some "12345" }

/-- An upload row with no `hgvs` value. -/
def rowMissingHgvs : Row :=
  { chromosome := some "2", position := some "7", ref := some "C", alt := some "G" }

/-- A second upload row with no `hgvs` value. -/
def rowMissingHgvs2 : Row :=
  { chromosome := some "3", position := some "9", ref := some "G", alt := some "A" }

/-- An upload row with `hgvs` populated but no `clinvar_id`. -/
def rowMissingClinvar : Row :=
  { chromosome := some "4", position := some "11", ref := some "T", alt := some "C",
    hgvs := some "NM_0002.1:c.2C>T" }

/-- A stored, fully classified variant under key `1:5:A:T`. -/
def storedBenignVariant : VariantRecord :=
  { vcf_form := "1:5:A:T", hgvs := some "NM_0001.1:c.1A>G",
    clinvar_id := some "12345", gene_symbol := some "GENE1",
    classification := some "Benign" }

/-- A store that already holds patient `p0` linked to
`storedBenignVariant`. -/
def storeWithBenign : Store :=
  { patients := ["p0"], genes := ["GENE1"], variants := [storedBenignVariant],
    links := [("p0", "1:5:A:T")] }

/-- An upload row for the same variant key `1:5:A:T` but carrying a
different, conflicting classification. -/
def rowConflicting : Row :=
  { chromosome := some "1", position := some "5", ref := some "A", alt := some "T",
    hgvs := some "NM_0001.1:c.1A>G", clinvar_id := some "99999",
    gene_symbol := some "GENE1", classification := some "Pathogenic" }

/-- An upload row identical (by canonical key) to what `storeWithBenign`
already holds for patient `p0`. -/
def rowIdentical : Row :=
  { chromosome := some "1", position := some "5", ref := some "A", alt := some "T" }

/-- A row reaching the writer with a `vcf_form` but no gene symbol at all
(the only shape on which the writer's `"UNKNOWN"` fallback fires). -/
def rowUnknownCase : Row :=
  { vcf_form := some "9:9:A:T" }

/-! ## Helper lemmas -/

theorem find?_append_of_some {α : Type} (p : α → Bool) (l l' : List α) (v : α)
    (h : l.find? p = some v) : (l ++ l').find? p = some v := by
  induction l with
  | nil => simp [List.find?] at h
  | cons a as ih =>
      by_cases hp : p a
      · rw [List.find?_cons_of_pos _ hp] at h
        rw [List.cons_append, List.find?_cons_of_pos _ hp]
        exact h
      · rw [List.find?_cons_of_neg _ hp] at h
        rw [List.cons_append, List.find?_cons_of_neg _ hp]
        exact ih h

theorem find?_append_of_none {α : Type} (p : α → Bool) (l l' : List α)
    (h : l.find? p = none) : (l ++ l').find? p = l'.find? p := by
  induction l with
  | nil => simp
  | cons a as ih =>
      by_cases hp : p a
      · rw [List.find?_cons_of_pos _ hp] at h
        exact absurd h (by simp)
      · rw [List.find?_cons_of_neg _ hp] at h
        rw [List.cons_append, List.find?_cons_of_neg _ hp]
        exact ih h

/-- `findVariant` depends only on the `variants` table. -/
theorem findVariant_congr (st st' : Store) (h : st.variants = st'.variants)
    (key : String) : findVariant st key = findVariant st' key := by
  unfold findVariant
  rw [h]

/-- `geneInvariant` depends only on the `genes` and `variants` tables. -/
theorem geneInvariant_congr (st st' : Store) (hg : st.genes = st'.genes)
    (hv : st.variants = st'.variants) : geneInvariant st = geneInvariant st' := by
  unfold geneInvariant
  rw [hg, hv]

theorem ensurePatient_genes (name : String) (st : Store) :
    (ensurePatient name st).genes = st.genes := by
  unfold ensurePatient; split <;> rfl

theorem ensurePatient_variants (name : String) (st : Store) :
    (ensurePatient name st).variants = st.variants := by
  unfold ensurePatient; split <;> rfl

theorem ensurePatient_links (name : String) (st : Store) :
    (ensurePatient name st).links = st.links := by
  unfold ensurePatient; split <;> rfl

theorem ensureGene_variants (g : String) (st : Store) :
    (ensureGene g st).variants = st.variants := by
  unfold ensureGene; split <;> rfl

theorem ensureGene_links (g : String) (st : Store) :
    (ensureGene g st).links = st.links := by
  unfold ensureGene; split <;> rfl

theorem ensureGene_mem (g : String) (st : Store) : g ∈ (ensureGene g st).genes := by
  unfold ensureGene
  split
  · assumption
  · simp

theorem ensureGene_mono (g x : String) (st : Store) (h : x ∈ st.genes) :
    x ∈ (ensureGene g st).genes := by
  unfold ensureGene
  split
  · exact h
  · simp [h]

theorem ensureVariant_genes (r : Row) (g key : String) (st : Store) :
    (ensureVariant r g key st).genes = st.genes := by
  unfold ensureVariant; split <;> rfl

theorem ensureVariant_links (r : Row) (g key : String) (st : Store) :
    (ensureVariant r g key st).links = st.links := by
  unfold ensureVariant; split <;> rfl

/-- `ensureVariant` never disturbs an existing variant record. -/
theorem ensureVariant_find_pres (r : Row) (g key key' : String) (st : Store)
    (v : VariantRecord) (h : findVariant st key' = some v) :
    findVariant (ensureVariant r g key st) key' = some v := by
  unfold ensureVariant
  split
  · exact h
  · unfold findVariant at h ⊢
    exact find?_append_of_some _ _ _ _ h

theorem ensureLink_genes (name key : String) (st : Store) :
    (ensureLink name key st).genes = st.genes := by
  unfold ensureLink; split <;> rfl

theorem ensureLink_variants (name key : String) (st : Store) :
    (ensureLink name key st).variants = st.variants := by
  unfold ensureLink; split <;> rfl

/-- `insert_row_store` never disturbs an existing variant record. -/
theorem insert_row_store_find_pres (name : String) (st : Store) (r : Row)
    (key : String) (v : VariantRecord) (h : findVariant st key = some v) :
    findVariant (insert_row_store name st r) key = some v := by
  unfold insert_row_store
  split
  · exact h
  · rw [findVariant_congr _ _
      (ensureLink_variants name (pyStr r.vcf_form) _)]
    apply ensureVariant_find_pres
    rw [findVariant_congr _ _ (ensureGene_variants (writer_gene_symbol r) st)]
    exact h

/-- `insert_dataframe_store` never disturbs an existing variant record. -/
theorem insert_dataframe_store_find_pres (name : String) (df : List Row)
    (st : Store) (key : String) (v : VariantRecord)
    (h : findVariant st key = some v) :
    findVariant (insert_dataframe_store name st df) key = some v := by
  unfold insert_dataframe_store
  have h0 : findVariant (ensurePatient name st) key = some v := by
    rw [findVariant_congr _ _ (ensurePatient_variants name st)]
    exact h
  generalize ensurePatient name st = st0 at h0
  induction df generalizing st0 with
  | nil => exact h0
  | cons r rest ih =>
      exact ih _ (insert_row_store_find_pres name st0 r key v h0)

/-! ## Claim theorems -/

/-- C1.  The claim says `fetch_variant_validator` accepts every valid
canonical key and rejects any malformed chromosome, position, ref or alt
with a format error before its network call.  The cited implementation
(`src/parkinsons_annotator/utils/variantvalidator_fetch.py`) validates only
the field count: the four-field key `"23:12345:A:T"`, whose chromosome 23
is outside 1–22/X/Y, proceeds to the outbound request.  The twin
implementation in `Parkinsons_annotator/utils/variantvalidator_fetch.py`,
against which the repository's tests assert exactly the claimed behaviour,
rejects it before any network call. -/
theorem vv_validation_src_divergence :
    fetch_variant_validator_attempt_src "23:12345:A:T" = .called "23:12345:A:T"
    ∧ fetch_variant_validator_attempt_src "17:45983420:G:T" = .called "17:45983420:G:T"
    ∧ fetch_variant_validator_attempt_pa "23:12345:A:T"
        = .rejected .variantDescriptionError
    ∧ fetch_variant_validator_attempt_pa "17:45983420:G:T"
        = .called "17:45983420:G:T" :=
  ⟨by decide, by decide, by decide, by decide⟩

/-- C7.  The claim says the VariantValidator response is scanned for the
first key containing a cDNA-change marker, and that the absence of such a
key raises `VariantValidatorResponseError`.  The cited implementation
(`src/parkinsons_annotator/utils/variantvalidator_fetch.py` lines 74–86)
instead takes the first key other than `"flag"`/`"metadata"` — even one
with no `":c."` marker — and, when every key is `"flag"`/`"metadata"`,
reads the never-assigned local `first_key` and raises `NameError`.  The
twin implementation behaves as claimed. -/
theorem vv_first_key_src_divergence :
    vv_first_key_src ["flag", "metadata"] = .error .nameError
    ∧ vv_first_key_src ["flag", "validation_warning_1"] = .ok "validation_warning_1"
    ∧ pyContains "validation_warning_1" ":c." = false
    ∧ vv_first_key_pa ["flag", "metadata"] = .error .variantValidatorResponseError
    ∧ vv_first_key_pa ["flag", "validation_warning_1", "NM_001377265.1:c.841G>T"]
        = .ok "NM_001377265.1:c.841G>T" :=
  ⟨by decide, by decide, by decide, by decide, by decide⟩

/-- C6.  `fetch_clinvar_id` raises `HGVSFormatError` before any network
call unless the input starts with `"NM_"` and contains both `":"` and
`"c."`; on a valid-format input whose search returns zero candidate ids it
raises `ClinVarIDNotFoundError`, which is distinct from
`ClinVarConnectionError`. -/
theorem fetch_clinvar_id_error_taxonomy : ∀ (hgvs : String) (net : ESearchNet),
    (¬ (pyStartswith hgvs "NM_" = true ∧ pyContains hgvs ":" = true
          ∧ pyContains hgvs "c." = true) →
        fetch_clinvar_id hgvs net = .rejected .hgvsFormatError)
    ∧ ((pyStartswith hgvs "NM_" = true ∧ pyContains hgvs ":" = true
          ∧ pyContains hgvs "c." = true) →
        fetch_clinvar_id hgvs (.ids [])
            = .searched hgvs (.error .clinVarIDNotFoundError)
        ∧ fetch_clinvar_id hgvs .connFail
            = .searched hgvs (.error .clinVarConnectionError))
    ∧ PyError.clinVarIDNotFoundError ≠ PyError.clinVarConnectionError := by
  intro hgvs net
  refine ⟨?_, ?_, by decide⟩
  · intro h
    have hfmt : hgvs_format_ok hgvs = false := by
      unfold hgvs_format_ok
      simp only [Bool.and_eq_true, Bool.and_eq_false_iff] at h ⊢
      by_cases h1 : pyStartswith hgvs "NM_" = true
      · by_cases h2 : pyContains hgvs ":" = true
        · by_cases h3 : pyContains hgvs "c." = true
          · exact absurd ⟨h1, h2, h3⟩ h
          · exact Or.inr (by simpa using h3)
        · exact Or.inl (Or.inr (by simpa using h2))
      · exact Or.inl (Or.inl (by simpa using h1))
    unfold fetch_clinvar_id
    rw [hfmt]
    simp
  · intro h
    have hfmt : hgvs_format_ok hgvs = true := by
      unfold hgvs_format_ok
      simp [Bool.and_eq_true, h.1, h.2.1, h.2.2]
    unfold fetch_clinvar_id
    rw [hfmt]
    simp

/-- C6 witness: a concrete valid-format query with an empty id list and a
concrete malformed query. -/
theorem fetch_clinvar_id_error_taxonomy_witness :
    fetch_clinvar_id "NM_001377265.1:c.841G>T" (.ids [])
        = .searched "NM_001377265.1:c.841G>T" (.error .clinVarIDNotFoundError)
    ∧ fetch_clinvar_id "chr17:g.50198002C>A" (.ids ["1"])
        = .rejected .hgvsFormatError :=
  ⟨((fetch_clinvar_id_error_taxonomy "NM_001377265.1:c.841G>T" (.ids [])).2.1
      (by decide)).1,
   (fetch_clinvar_id_error_taxonomy "chr17:g.50198002C>A" (.ids ["1"])).1
      (by decide)⟩

/-- C5.  The claim says a row whose enrichment fetch fails degrades to a
null marker and the remaining rows of the batch continue.  In the code the
per-row cache lookup `existing_variant_check(vcf_form, session)` — reached
before any fetch, outside the `try` — raises `TypeError`, so enriching any
batch with a missing `hgvs` (resp. `clinvar_id`) aborts the whole batch at
its first such row; the fetch-level `except` handlers that implement the
claimed isolation (third conjunct) are unreachable. -/
theorem enrich_per_row_isolation_broken :
    enrich_hgvs nullApiEnv (fill_vcf_form_column [rowMissingHgvs, rowMissingHgvs2])
        (Session.clean {}) = .error .typeError
    ∧ enrich_clinvar nullApiEnv [rowMissingClinvar] (Session.clean {})
        = .error .typeError
    ∧ enrich_clinvar_fetch nullApiEnv rowMissingClinvar
        = .ok (clearClinVarFields rowMissingClinvar, 1) :=
  ⟨by decide, by decide, by decide⟩

theorem enrich_hgvs_go_missing_error (env : ApiEnv) (s : Session) (df : List Row)
    (h : ∃ r ∈ df, pyTruthy r.hgvs = false) :
    enrich_hgvs_go env s df = .error .typeError := by
  induction df with
  | nil => simp at h
  | cons r rest ih =>
      by_cases hr : pyTruthy r.hgvs = true
      · have hrest : ∃ x ∈ rest, pyTruthy x.hgvs = false := by
          rcases h with ⟨x, hx, hmiss⟩
          rcases List.mem_cons.mp hx with hx | hx
          · subst hx; rw [hr] at hmiss; cases hmiss
          · exact ⟨x, hx, hmiss⟩
        unfold enrich_hgvs_go
        rw [if_pos hr, ih hrest]
      · unfold enrich_hgvs_go
        rw [if_neg hr]
        rfl

theorem enrich_clinvar_go_missing_error (env : ApiEnv) (s : Session) (df : List Row)
    (h : ∃ r ∈ df, pyTruthy r.clinvar_id = false) :
    enrich_clinvar_go env s df = .error .typeError := by
  induction df with
  | nil => simp at h
  | cons r rest ih =>
      by_cases hr : pyTruthy r.clinvar_id = true
      · have hrest : ∃ x ∈ rest, pyTruthy x.clinvar_id = false := by
          rcases h with ⟨x, hx, hmiss⟩
          rcases List.mem_cons.mp hx with hx | hx
          · subst hx; rw [hr] at hmiss; cases hmiss
          · exact ⟨x, hx, hmiss⟩
        unfold enrich_clinvar_go
        rw [if_pos hr, ih hrest]
      · unfold enrich_clinvar_go
        rw [if_neg hr]
        rfl

/-- C10.  The cache lookup call `existing_variant_check(vcf_form, session)`
(two positional arguments against a single-parameter definition) raises
`TypeError` for every row that reaches it; since it sits outside any
`try`, the first row with a missing/empty `hgvs` makes `enrich_hgvs` abort
the whole batch with that `TypeError`, and likewise the first row with a
missing/empty `clinvar_id` makes `enrich_clinvar` abort. -/
theorem existing_variant_check_arity_bug :
    ∀ (v : Option String) (s : Session) (env : ApiEnv) (df : List Row),
    existing_variant_check_call2 v s = .error .typeError
    ∧ ((∃ r ∈ df, pyTruthy r.hgvs = false) →
        enrich_hgvs env df s = .error .typeError)
    ∧ ((∃ r ∈ df, pyTruthy r.clinvar_id = false) →
        enrich_clinvar env df s = .error .typeError) := by
  intro v s env df
  refine ⟨rfl, ?_, ?_⟩
  · intro h
    unfold enrich_hgvs
    exact enrich_hgvs_go_missing_error env s df h
  · intro h
    unfold enrich_clinvar
    rw [enrich_clinvar_go_missing_error env s df h]

/-- C10 witness: one row missing both `hgvs` and `clinvar_id` aborts both
enrichment passes with `TypeError`. -/
theorem existing_variant_check_arity_bug_witness :
    enrich_hgvs nullApiEnv [rowMissingHgvs] (Session.clean {}) = .error .typeError
    ∧ enrich_clinvar nullApiEnv [rowMissingHgvs] (Session.clean {})
        = .error .typeError :=
  ⟨(existing_variant_check_arity_bug none (Session.clean {}) nullApiEnv
      [rowMissingHgvs]).2.1 (by decide),
   (existing_variant_check_arity_bug none (Session.clean {}) nullApiEnv
      [rowMissingHgvs]).2.2 (by decide)⟩

/-- C2.  Modelled from the spec (`compare_uploaded_vs_existing` is absent
from src/): when the uploaded patient already exists and the uploaded row
set equals the stored row set for that patient by canonical key, the
driver-loop iteration for that patient is a no-op — the session is
returned untouched (zero writes) and zero outbound API calls are made. -/
theorem reingest_identical_noop (env : ApiEnv) (name : String) (df : List Row)
    (s : Session)
    (h : compare_uploaded_vs_existing name df s.working = (true, true)) :
    process_patient env name df s = (.ok (), s, 0) := by
  unfold process_patient
  rw [if_pos h]

/-- C2 witness: re-uploading the variant set already stored for patient
`p0` is skipped. -/
theorem reingest_identical_noop_witness :
    process_patient nullApiEnv "p0" [rowIdentical] (Session.clean storeWithBenign)
      = (.ok (), Session.clean storeWithBenign, 0) :=
  reingest_identical_noop nullApiEnv "p0" [rowIdentical]
    (Session.clean storeWithBenign) (by decide)

/-- C3.  Fill-don't-overwrite: a variant already stored under its canonical
key is left with every field (in particular `classification`) unchanged by
a later ingestion/enrichment pass — the writer only inserts a Variant when
the key is absent, and the enrichment steps never write to the store. -/
theorem variant_fill_dont_overwrite (env : ApiEnv) (name : String)
    (df : List Row) (s : Session) (key : String) (v : VariantRecord)
    (h : findVariant s.working key = some v) :
    findVariant ((process_patient env name df s).2.1).working key = some v := by
  unfold process_patient
  split
  · exact h
  · split
    · exact h
    · split
      · exact h
      · exact insert_dataframe_store_find_pres name _ s.working key v h

/-- C3 witness: a stored Benign variant survives, byte for byte, a later
pass whose upload row carries a conflicting Pathogenic classification. -/
theorem variant_fill_dont_overwrite_witness :
    findVariant ((process_patient nullApiEnv "p1" [rowConflicting]
        (Session.clean storeWithBenign)).2.1).working "1:5:A:T"
      = some storedBenignVariant :=
  variant_fill_dont_overwrite nullApiEnv "p1" [rowConflicting]
    (Session.clean storeWithBenign) "1:5:A:T" storedBenignVariant (by decide)

/-- Every write of the driver-loop body is a pending insert: the committed
view is untouched. -/
theorem process_patient_committed (env : ApiEnv) (name : String) (df : List Row)
    (s : Session) : ((process_patient env name df s).2.1).committed = s.committed := by
  unfold process_patient
  split
  · rfl
  · split
    · rfl
    · split
      · rfl
      · rfl

/-- The whole driver loop leaves the committed view untouched, whether or
not it raises. -/
theorem process_patients_committed (env : ApiEnv)
    (batches : List (String × List Row)) (s : Session) :
    ((process_patients env batches s).2.1).committed = s.committed := by
  induction batches generalizing s with
  | nil => rfl
  | cons b rest ih =>
      obtain ⟨name, df⟩ := b
      have hpc := process_patient_committed env name df s
      unfold process_patients
      rcases hp : process_patient env name df s with ⟨res, s', n⟩
      rw [hp] at hpc
      cases res with
      | error e => simpa using hpc
      | ok u =>
          rcases hq : process_patients env rest s' with ⟨res2, s'', m⟩
          have h2 := ih s'
          rw [hq] at h2
          show (match process_patients env rest s' with
                | (res2, s'', m) => (res2, s'', n + m)).2.1.committed = s.committed
          rw [hq]
          exact h2.trans hpc

/-- C4.  Batch atomicity: `load_and_insert_data` either commits the whole
run, or — on any exception during processing — rolls back so that the
store visible to subsequent reads is exactly the prior store, with the
error propagated to the caller. -/
theorem load_and_insert_data_atomic (env : ApiEnv)
    (batches : List (String × List Row)) (st : Store) :
    (∃ stNew, load_and_insert_data env batches st = (.ok (), stNew))
    ∨ (∃ e, load_and_insert_data env batches st = (.error e, st)) := by
  unfold load_and_insert_data
  have hc := process_patients_committed env batches (Session.clean st)
  rcases hp : process_patients env batches (Session.clean st) with ⟨res, s', n⟩
  rw [hp] at hc
  cases res with
  | ok u =>
      exact Or.inl ⟨(Session.commit s').committed, rfl⟩
  | error e =>
      refine Or.inr ⟨e, ?_⟩
      have hr : (Session.rollback s').committed = st := by
        unfold Session.rollback
        simpa using hc
      show (Except.error e, (Session.rollback s').committed)
        = ((Except.error e : Except PyError Unit), st)
      rw [hr]

theorem ensureLink_links_spec (name key : String) (st : Store) :
    (ensureLink name key st).links = st.links ∨
    ((name, key) ∉ st.links ∧ (ensureLink name key st).links = st.links ++ [(name, key)]) := by
  by_cases hmem : (name, key) ∈ st.links
  · rw [ensureLink, if_pos hmem]
    exact Or.inl rfl
  · rw [ensureLink, if_neg hmem]
    exact Or.inr ⟨hmem, rfl⟩

theorem insert_row_store_links_spec (name : String) (st : Store) (r : Row) :
    (insert_row_store name st r).links = st.links ∨
    ∃ key, (name, key) ∉ st.links ∧
      (insert_row_store name st r).links = st.links ++ [(name, key)] := by
  unfold insert_row_store
  split
  · exact Or.inl rfl
  · have hlinks :
        (ensureVariant r (writer_gene_symbol r) (pyStr r.vcf_form)
          (ensureGene (writer_gene_symbol r) st)).links = st.links := by
      rw [ensureVariant_links, ensureGene_links]
    rcases ensureLink_links_spec name (pyStr r.vcf_form)
        (ensureVariant r (writer_gene_symbol r) (pyStr r.vcf_form)
          (ensureGene (writer_gene_symbol r) st)) with h | ⟨hnot, happ⟩
    · exact Or.inl (h.trans hlinks)
    · refine Or.inr ⟨pyStr r.vcf_form, ?_, ?_⟩
      · rw [← hlinks]; exact hnot
      · rw [happ, hlinks]

theorem nodup_append_single {α : Type} (l : List α) (a : α) (h : l.Nodup)
    (ha : a ∉ l) : (l ++ [a]).Nodup := by
  rw [List.nodup_append]
  refine ⟨h, List.nodup_singleton a, ?_⟩
  intro x hx hxa
  rw [List.mem_singleton] at hxa
  subst hxa
  exact ha hx

theorem insert_row_store_links_sublist (name : String) (st : Store) (r : Row) :
    st.links.Sublist (insert_row_store name st r).links := by
  rcases insert_row_store_links_spec name st r with h | ⟨key, _, h⟩
  · rw [h]
  · rw [h]
    exact List.sublist_append_left _ _

theorem insert_row_store_links_nodup (name : String) (st : Store) (r : Row)
    (h : st.links.Nodup) : (insert_row_store name st r).links.Nodup := by
  rcases insert_row_store_links_spec name st r with heq | ⟨key, hnot, heq⟩
  · rw [heq]; exact h
  · rw [heq]; exact nodup_append_single _ _ h hnot

theorem foldl_insert_links (name : String) (df : List Row) (st0 : Store) :
    st0.links.Sublist
      (df.foldl (fun acc r => insert_row_store name acc r) st0).links
    ∧ (st0.links.Nodup →
        (df.foldl (fun acc r => insert_row_store name acc r) st0).links.Nodup) := by
  induction df generalizing st0 with
  | nil => exact ⟨List.Sublist.refl _, fun h => h⟩
  | cons r rest ih =>
      have hsub := insert_row_store_links_sublist name st0 r
      have hnd := insert_row_store_links_nodup name st0 r
      rcases ih (insert_row_store name st0 r) with ⟨ihs, ihn⟩
      exact ⟨hsub.trans ihs, fun h => ihn (hnd h)⟩

theorem insert_dataframe_store_links (name : String) (df : List Row) (st : Store) :
    st.links.Sublist (insert_dataframe_store name st df).links
    ∧ (st.links.Nodup → (insert_dataframe_store name st df).links.Nodup) := by
  unfold insert_dataframe_store
  have h0 := ensurePatient_links name st
  rcases foldl_insert_links name df (ensurePatient name st) with ⟨hs, hn⟩
  rw [h0] at hs hn
  exact ⟨hs, hn⟩

/-- C9.  A Patient–Variant link is inserted at most once per
(patient, canonical key) pair — the writer inserts only when the link-table
query finds no prior link, so links stay duplicate-free — and the pipeline
never removes or mutates a link (the prior link list survives in order as a
sublist). -/
theorem patient_variant_link_unique (env : ApiEnv) (name : String)
    (df : List Row) (s : Session) :
    s.working.links.Sublist ((process_patient env name df s).2.1).working.links
    ∧ (s.working.links.Nodup →
        ((process_patient env name df s).2.1).working.links.Nodup) := by
  unfold process_patient
  split
  · exact ⟨List.Sublist.refl _, fun h => h⟩
  · split
    · exact ⟨List.Sublist.refl _, fun h => h⟩
    · split
      · exact ⟨List.Sublist.refl _, fun h => h⟩
      · exact insert_dataframe_store_links name _ s.working

/-- C9 witness: ingesting a new patient over a store that already holds one
link keeps the old link, keeps the link list duplicate-free, and only adds
the new pair. -/
theorem patient_variant_link_unique_witness :
    storeWithBenign.links.Sublist
      ((process_patient nullApiEnv "p1" [rowConflicting]
          (Session.clean storeWithBenign)).2.1).working.links
    ∧ ((process_patient nullApiEnv "p1" [rowConflicting]
          (Session.clean storeWithBenign)).2.1).working.links.Nodup :=
  ⟨(patient_variant_link_unique nullApiEnv "p1" [rowConflicting]
      (Session.clean storeWithBenign)).1,
   (patient_variant_link_unique nullApiEnv "p1" [rowConflicting]
      (Session.clean storeWithBenign)).2 (by decide)⟩

theorem geneInvariant_iff (st : Store) : geneInvariant st = true ↔
    ∀ v ∈ st.variants, ∃ g, v.gene_symbol = some g ∧ g ∈ st.genes := by
  unfold geneInvariant
  rw [List.all_eq_true]
  constructor
  · intro h v hv
    have hval := h v hv
    cases hg : v.gene_symbol with
    | none => rw [hg] at hval; simp at hval
    | some g =>
        rw [hg] at hval
        exact ⟨g, rfl, by simpa using hval⟩
  · intro h v hv
    rcases h v hv with ⟨g, hg, hmem⟩
    rw [hg]
    simpa using hmem

theorem insert_row_store_geneInv (name : String) (st : Store) (r : Row)
    (h : geneInvariant st = true) :
    geneInvariant (insert_row_store name st r) = true := by
  unfold insert_row_store
  split
  · exact h
  · have h1 : geneInvariant (ensureGene (writer_gene_symbol r) st) = true := by
      rw [geneInvariant_iff] at h ⊢
      intro v hv
      rw [ensureGene_variants] at hv
      rcases h v hv with ⟨gv, hgv, hmem⟩
      exact ⟨gv, hgv, ensureGene_mono _ gv st hmem⟩
    have hmemg := ensureGene_mem (writer_gene_symbol r) st
    have h2 : geneInvariant (ensureVariant r (writer_gene_symbol r)
        (pyStr r.vcf_form) (ensureGene (writer_gene_symbol r) st)) = true := by
      rw [geneInvariant_iff] at h1 ⊢
      intro v hv
      rw [ensureVariant_genes]
      cases hf : findVariant (ensureGene (writer_gene_symbol r) st) (pyStr r.vcf_form) with
      | some w =>
          rw [ensureVariant, hf] at hv
          exact h1 v hv
      | none =>
          rw [ensureVariant, hf] at hv
          simp only [List.mem_append, List.mem_singleton] at hv
          rcases hv with hv | hv
          · exact h1 v hv
          · subst hv
            exact ⟨writer_gene_symbol r, rfl, hmemg⟩
    rw [geneInvariant_iff] at h2 ⊢
    intro v hv
    rw [ensureLink_variants] at hv
    rw [ensureLink_genes]
    exact h2 v hv

theorem insert_dataframe_store_geneInv (name : String) (df : List Row)
    (st : Store) (h : geneInvariant st = true) :
    geneInvariant (insert_dataframe_store name st df) = true := by
  unfold insert_dataframe_store
  have h0 : geneInvariant (ensurePatient name st) = true := by
    rw [geneInvariant_congr (ensurePatient name st) st
      (ensurePatient_genes name st) (ensurePatient_variants name st)]
    exact h
  generalize ensurePatient name st = st0 at h0
  induction df generalizing st0 with
  | nil => exact h0
  | cons r rest ih =>
      exact ih _ (insert_row_store_geneInv name st0 r h0)

theorem writer_gene_symbol_unknown (r : Row) (hg : pyTruthy r.gene_symbol = false) :
    writer_gene_symbol r = "UNKNOWN" := by
  unfold writer_gene_symbol
  cases hrg : r.gene_symbol with
  | none => rfl
  | some g =>
      rw [hrg] at hg
      unfold pyTruthy at hg
      simp only [decide_eq_false_iff_not, not_not] at hg
      show (if g = "" then "UNKNOWN" else g) = "UNKNOWN"
      rw [if_pos hg]

/-- C8, amended.  The writer substitutes the placeholder `"UNKNOWN"` only
when a row reaches it with a missing/empty gene symbol (second conjunct:
such a row creates an `"UNKNOWN"` Gene row and a Variant referencing it);
and every Variant the writer creates references an existing Gene row
(first conjunct: the gene-reference invariant is preserved).  Rows that
pass through ClinVar enrichment, however, never reach the writer with an
empty gene symbol — the `fillna` pass substitutes
`"Not found in ClinVar"` first (see the counterexample). -/
theorem gene_placeholder_amended :
    ∀ (name : String) (df : List Row) (s : Session) (st : Store) (r : Row),
    (geneInvariant s.working = true →
        geneInvariant (insert_dataframe_to_db name df s).working = true)
    ∧ (pyTruthy r.gene_symbol = false → pyTruthy r.vcf_form = true →
        findVariant st (pyStr r.vcf_form) = none →
        "UNKNOWN" ∈ (insert_row_store name st r).genes
        ∧ findVariant (insert_row_store name st r) (pyStr r.vcf_form)
            = some (mkVariantRow r "UNKNOWN")) := by
  intro name df s st r
  constructor
  · intro h
    exact insert_dataframe_store_geneInv name df s.working h
  · intro hg hv hfind
    have hW := writer_gene_symbol_unknown r hg
    unfold insert_row_store
    rw [if_neg (by simp [hv]), hW]
    have hfind1 : findVariant (ensureGene "UNKNOWN" st) (pyStr r.vcf_form) = none := by
      rw [findVariant_congr _ _ (ensureGene_variants "UNKNOWN" st)]
      exact hfind
    constructor
    · rw [ensureLink_genes, ensureVariant_genes]
      exact ensureGene_mem _ _
    · rw [findVariant_congr _ _ (ensureLink_variants name (pyStr r.vcf_form) _)]
      rw [ensureVariant, hfind1]
      unfold findVariant at hfind1 ⊢
      rw [find?_append_of_none _ _ _ hfind1]
      simp [mkVariantRow]

/-- C8 amended witness: the gene-reference invariant holds after writing a
batch into an empty store, and a row with no gene symbol at write time
creates the `"UNKNOWN"` Gene row. -/
theorem gene_placeholder_amended_witness :
    geneInvariant (insert_dataframe_to_db "p1" [rowNoGene]
        (Session.clean {})).working = true
    ∧ "UNKNOWN" ∈ (insert_row_store "p1" {} rowUnknownCase).genes :=
  ⟨(gene_placeholder_amended "p1" [rowNoGene] (Session.clean {}) {} rowUnknownCase).1
      (by decide),
   ((gene_placeholder_amended "p1" [rowNoGene] (Session.clean {}) {} rowUnknownCase).2
      (by decide) (by decide) (by decide)).1⟩

/-- C8 counterexample to the claim as stated: a row whose enrichment yields
no gene symbol (`rowNoGene`, pre-annotated so both enrichment loops skip
it) is written through the full pipeline with the gene symbol
`"Not found in ClinVar"` — the `fillna` default of `enrich_clinvar` — and
no `"UNKNOWN"` Gene row is ever created. -/
theorem gene_placeholder_counterexample :
    (process_patient nullApiEnv "patient1" [rowNoGene] (Session.clean {})).1 = .ok ()
    ∧ ((process_patient nullApiEnv "patient1" [rowNoGene]
          (Session.clean {})).2.1).working.variants.map (fun v => v.gene_symbol)
        = [some "Not found in ClinVar"]
    ∧ ((process_patient nullApiEnv "patient1" [rowNoGene]
          (Session.clean {})).2.1).working.genes = ["Not found in ClinVar"] :=
  ⟨by decide, by decide, by decide⟩

end ParkAnnot
